import Mathlib

set_option maxHeartbeats 1000000

/- Shallow embedding of the AI chat application backend. The definitions are
   translated from src/backend/models/Chat.js and src/backend/routes/ai.js
   (the latter file also carries the conversation router with the generic
   add-message, title-update and delete endpoints). Strings are modeled as
   lists of characters; machine timestamps are natural numbers supplied by
   the caller of each operation. -/

/-- Characters of a string literal; the embedding works over lists of characters. -/
def strL (s : String) : List Char := s.toList

/-- Roles allowed by the message schema in models/Chat.js. -/
inductive Role where
  | user
  | assistant
  | system
deriving DecidableEq

/-- A message subdocument: role, content, timestamp, model (required exactly
when the role is assistant), and a token count defaulting to 0. -/
structure Msg where
  role : Role
  content : List Char
  timestamp : Nat
  model : Option (List Char)
  tokens : Nat
deriving DecidableEq

/-- A conversation document from models/Chat.js. -/
structure Chat where
  id : Nat
  title : List Char
  user : Nat
  messages : List Msg
  model : List Char
  isActive : Bool
  totalTokens : Nat
  lastActivity : Nat
deriving DecidableEq

/-- Rough token estimation used by both routes: Math.ceil(length / 4). -/
def ceilDiv4 (n : Nat) : Nat := (n + 3) / 4

/-- messages.reduce((total, msg) => total + (msg.tokens || 0), 0). -/
def sumTokens (ms : List Msg) : Nat := ms.foldl (fun t m => t + m.tokens) 0

/-- chatSchema.methods.calculateTotalTokens from models/Chat.js. -/
def calculateTotalTokens (c : Chat) : Chat :=
  { c with totalTokens := sumTokens c.messages }

/-- chatSchema pre-save hook: lastActivity is refreshed when the messages
array was modified; every save modeled here happens right after a push to
messages, so the hook always fires. -/
def saveChat (now : Nat) (c : Chat) : Chat := { c with lastActivity := now }

/-- chatSchema.methods.generateTitle from models/Chat.js: first user message
content cut to 50 characters, with an ellipsis marker when longer. The
source guards on messages.length greater than zero and then searches for the
first user message, which is the same as searching the whole list. -/
def generateTitle (c : Chat) : List Char :=
  match c.messages.find? (fun m => decide (m.role = Role.user)) with
  | some m => m.content.take 50 ++ (if 50 < m.content.length then strL "..." else [])
  | none => strL "New Chat"

/-- Token accounting invariant asserted by the spec for conversations. -/
def tokenInvariant (c : Chat) : Prop := c.totalTokens = sumTokens c.messages

instance (c : Chat) : Decidable (tokenInvariant c) := by
  unfold tokenInvariant; infer_instance

/-- JSON values, for modeling JSON.parse applied to upstream stream frames. -/
inductive Json where
  | jnull
  | jbool (b : Bool)
  | jnum (n : Int)
  | jstr (s : List Char)
  | jarr (elems : List Json)
  | jobj (fields : List (List Char × Json))

def lcurl : Char := Char.ofNat 123

def rcurl : Char := Char.ofNat 125

/-- Whitespace characters insignificant between JSON tokens. -/
def wsChar (c : Char) : Bool :=
  decide (c = ' ' ∨ c = '\t' ∨ c = '\n' ∨ c = '\r')

/-- Discard leading insignificant whitespace. -/
def dropWs : List Char → List Char
  | [] => []
  | c :: cs => if wsChar c then dropWs cs else c :: cs

/-- Value of one hexadecimal digit, for unicode escapes. -/
def hexDigit (c : Char) : Option Nat :=
  if c.isDigit then some (c.toNat - 48)
  else if 'a' ≤ c ∧ c ≤ 'f' then some (c.toNat - 87)
  else if 'A' ≤ c ∧ c ≤ 'F' then some (c.toNat - 55)
  else none

/-- Body of a JSON string after the opening quote: decoded characters plus
the remainder after the closing quote. The standard escapes are handled. -/
def parseStrBody : Nat → List Char → Option (List Char × List Char)
  | 0, _ => none
  | _ + 1, [] => none
  | fuel + 1, c :: cs =>
    if c = '"' then some ([], cs)
    else if c = '\\' then
      match cs with
      | [] => none
      | e :: cs2 =>
        if e = '"' ∨ e = '\\' ∨ e = '/' then
          (parseStrBody fuel cs2).map (fun r => (e :: r.1, r.2))
        else if e = 'n' then (parseStrBody fuel cs2).map (fun r => ('\n' :: r.1, r.2))
        else if e = 't' then (parseStrBody fuel cs2).map (fun r => ('\t' :: r.1, r.2))
        else if e = 'r' then (parseStrBody fuel cs2).map (fun r => ('\r' :: r.1, r.2))
        else if e = 'b' then (parseStrBody fuel cs2).map (fun r => (Char.ofNat 8 :: r.1, r.2))
        else if e = 'f' then (parseStrBody fuel cs2).map (fun r => (Char.ofNat 12 :: r.1, r.2))
        else if e = 'u' then
          match cs2 with
          | h1 :: h2 :: h3 :: h4 :: cs3 =>
            match hexDigit h1, hexDigit h2, hexDigit h3, hexDigit h4 with
            | some a, some b, some c2, some d =>
              (parseStrBody fuel cs3).map
                (fun r => (Char.ofNat (a * 4096 + b * 256 + c2 * 16 + d) :: r.1, r.2))
            | _, _, _, _ => none
          | _ => none
        else none
    else (parseStrBody fuel cs).map (fun r => (c :: r.1, r.2))

def digitsVal : List Char → Nat → Nat × List Char
  | c :: cs, acc =>
    if c.isDigit then digitsVal cs (acc * 10 + (c.toNat - '0'.toNat)) else (acc, c :: cs)
  | [], acc => (acc, [])

/-- Integer number literals; fractional and exponent parts do not occur in
the provider frames modeled here and are rejected. -/
def parseNum (cs : List Char) : Option (Json × List Char) :=
  let p := match cs with
    | '-' :: rest => (true, rest)
    | _ => (false, cs)
  match p.2 with
  | c :: _ =>
    if c.isDigit then
      let r := digitsVal p.2 0
      let v : Int := if p.1 then -(r.1 : Int) else (r.1 : Int)
      match r.2 with
      | d :: _ => if d = '.' ∨ d = 'e' ∨ d = 'E' then none else some (Json.jnum v, r.2)
      | [] => some (Json.jnum v, [])
    else none
  | [] => none

def stripLead : List Char → List Char → Option (List Char)
  | [], cs => some cs
  | _ :: _, [] => none
  | p :: ps, c :: cs => if p = c then stripLead ps cs else none

mutual

def parseVal : Nat → List Char → Option (Json × List Char)
  | 0, _ => none
  | fuel + 1, cs =>
    match dropWs cs with
    | [] => none
    | c :: rest =>
      if c = '"' then
        (parseStrBody (rest.length + 1) rest).map (fun r => (Json.jstr r.1, r.2))
      else if c = lcurl then parseObjRest fuel rest
      else if c = '[' then parseArrRest fuel rest
      else
        match stripLead (strL "true") (c :: rest) with
        | some r => some (Json.jbool true, r)
        | none =>
        match stripLead (strL "false") (c :: rest) with
        | some r => some (Json.jbool false, r)
        | none =>
        match stripLead (strL "null") (c :: rest) with
        | some r => some (Json.jnull, r)
        | none => parseNum (c :: rest)

def parseArrRest : Nat → List Char → Option (Json × List Char)
  | 0, _ => none
  | fuel + 1, cs =>
    match dropWs cs with
    | ']' :: rest => some (Json.jarr [], rest)
    | cs1 => do
      let v ← parseVal fuel cs1
      let vs ← parseArrTail fuel v.2
      some (Json.jarr (v.1 :: vs.1), vs.2)

def parseArrTail : Nat → List Char → Option (List Json × List Char)
  | 0, _ => none
  | fuel + 1, cs =>
    match dropWs cs with
    | ']' :: rest => some ([], rest)
    | ',' :: rest => do
      let v ← parseVal fuel rest
      let vs ← parseArrTail fuel v.2
      some (v.1 :: vs.1, vs.2)
    | _ => none

def parseObjRest : Nat → List Char → Option (Json × List Char)
  | 0, _ => none
  | fuel + 1, cs =>
    match dropWs cs with
    | c :: rest =>
      if c = rcurl then some (Json.jobj [], rest)
      else if c = '"' then do
        let k ← parseStrBody (rest.length + 1) rest
        match dropWs k.2 with
        | ':' :: r2 => do
          let v ← parseVal fuel r2
          let fs ← parseObjTail fuel v.2
          some (Json.jobj ((k.1, v.1) :: fs.1), fs.2)
        | _ => none
      else none
    | [] => none

def parseObjTail : Nat → List Char → Option (List (List Char × Json) × List Char)
  | 0, _ => none
  | fuel + 1, cs =>
    match dropWs cs with
    | c :: rest =>
      if c = rcurl then some ([], rest)
      else if c = ',' then
        match dropWs rest with
        | c2 :: r1 =>
          if c2 = '"' then do
            let k ← parseStrBody (r1.length + 1) r1
            match dropWs k.2 with
            | ':' :: r3 => do
              let v ← parseVal fuel r3
              let fs ← parseObjTail fuel v.2
              some ((k.1, v.1) :: fs.1, fs.2)
            | _ => none
          else none
        | [] => none
      else none
    | [] => none

end

/-- Model of JSON.parse as invoked on a stream frame payload: some value on
success, none exactly when parsing fails and the catch branch runs. -/
def jsonParse (cs : List Char) : Option Json :=
  match parseVal (2 * cs.length + 4) cs with
  | some v => if dropWs v.2 = [] then some v.1 else none
  | none => none

/-- Object field lookup; with duplicate keys the last one wins, as in JS. -/
def getField (fields : List (List Char × Json)) (key : List Char) : Option Json :=
  fields.foldl (fun acc kv => if kv.1 = key then some kv.2 else acc) none

/-- parsed.choices followed by index 0, delta, content, with the empty-string
default of the route; only string content values occur in the modeled
provider frames. -/
def extractDeltaContent (j : Json) : List Char :=
  match j with
  | Json.jobj fields =>
    match getField fields (strL "choices") with
    | some (Json.jarr (c0 :: _)) =>
      match c0 with
      | Json.jobj f1 =>
        match getField f1 (strL "delta") with
        | some (Json.jobj f2) =>
          match getField f2 (strL "content") with
          | some (Json.jstr s) => s
          | _ => []
        | _ => []
      | _ => []
    | _ => []
  | _ => []

/- Stream decoding state machine, translated from the data handler of the
   POST stream route (routes/ai.js). The handler splits each chunk on
   newlines, takes lines that begin with the data lead, strips the first six
   characters, finalizes on the DONE sentinel (returning from the handler so
   the remaining lines of the chunk are skipped), and otherwise parses the
   payload, appending a nonempty extracted delta to the accumulated response
   and writing a partial event; malformed payloads are skipped. -/

/-- Events written to the SSE response by the stream route. -/
inductive OutEv where
  | deltaEv (content : List Char)
  | doneEv (fullMessage : Msg)
deriving DecidableEq

/-- State of one streaming session: the conversation document held by the
handler, the accumulated response text, the SSE writes so far, and whether
the response has been ended. -/
structure SSt where
  chat : Chat
  fullResponse : List Char
  writes : List OutEv
  ended : Bool
deriving DecidableEq

def dataLead : List Char := strL "data: "

def doneMark : List Char := strL "[DONE]"

def doneChunk : List Char := strL "data: [DONE]\n"

/-- A single upstream frame as the provider would send it, terminated by a
newline. -/
def mkDataFrame (payload : List Char) : List Char := dataLead ++ payload ++ ['\n']

/-- chunk.toString().split on the newline character: always returns at least
one (possibly empty) piece, exactly like the JS split. -/
def splitNl : List Char → List (List Char)
  | [] => [[]]
  | c :: cs =>
    if c = '\n' then [] :: splitNl cs
    else
      match splitNl cs with
      | l :: ls => (c :: l) :: ls
      | [] => [[c]]

def beginsWith : List Char → List Char → Bool
  | [], _ => true
  | _ :: _, [] => false
  | p :: ps, c :: cs => p == c && beginsWith ps cs

/-- The assistant message persisted by the stream route on the DONE
sentinel: content is the accumulated response and tokens are estimated as
the ceiling of length over four. -/
def streamAssistantMsg (fullResponse : List Char) (mdl : List Char) (now : Nat) : Msg :=
  { role := Role.assistant, content := fullResponse, timestamp := now,
    model := some mdl, tokens := ceilDiv4 fullResponse.length }

/-- Line loop of the stream data handler. On the DONE sentinel the handler
pushes the assembled assistant message, recomputes totalTokens, saves,
writes the done event, ends the response and returns, skipping the rest of
the lines of the current chunk. -/
def procLines (mdl : List Char) (now : Nat) : SSt → List (List Char) → SSt
  | st, [] => st
  | st, line :: rest =>
    if beginsWith dataLead line then
      let d := line.drop 6
      if d = doneMark then
        let am := streamAssistantMsg st.fullResponse mdl now
        { st with
          chat := saveChat now (calculateTotalTokens
            { st.chat with messages := st.chat.messages ++ [am] }),
          writes := st.writes ++ [OutEv.doneEv am],
          ended := true }
      else
        match jsonParse d with
        | some j =>
          let content := extractDeltaContent j
          if content = [] then procLines mdl now st rest
          else procLines mdl now
            { st with fullResponse := st.fullResponse ++ content,
                      writes := st.writes ++ [OutEv.deltaEv content] } rest
        | none => procLines mdl now st rest
    else procLines mdl now st rest

/-- One invocation of the data handler on a raw chunk. -/
def procChunk (mdl : List Char) (now : Nat) (st : SSt) (chunk : List Char) : SSt :=
  procLines mdl now st (splitNl chunk)

/-- A whole upstream byte stream delivered as a list of chunks. -/
def runStream (mdl : List Char) (now : Nat) (st : SSt) (chunks : List (List Char)) : SSt :=
  chunks.foldl (procChunk mdl now) st

/-- External events seen by a streaming session: an upstream data chunk, or
the initiating client disconnecting. The route registers listeners only for
upstream data and upstream error events; no listener observes a client
disconnect, so that event leaves the handler state unchanged. -/
inductive UpEvent where
  | upData (chunk : List Char)
  | clientGone
deriving DecidableEq

def runSession (mdl : List Char) (now : Nat) : SSt → List UpEvent → SSt
  | st, [] => st
  | st, UpEvent.upData c :: evs => runSession mdl now (procChunk mdl now st c) evs
  | st, UpEvent.clientGone :: evs => runSession mdl now st evs

/-- Fresh session state for a conversation document. -/
def initSt (c : Chat) : SSt :=
  { chat := c, fullResponse := [], writes := [], ended := false }

/- Non-streaming chat route core (POST chat in routes/ai.js), modeled from
   the point where the conversation was found. The upstream call is a value
   of UpstreamReply: an envelope with the generated content and the optional
   usage total, or a failure. -/

/-- Response envelope fields read by the route: choices[0].message.content
and usage total_tokens (absent usage yields the 0 default). -/
structure Envelope where
  content : List Char
  totalTokens : Option Nat
deriving DecidableEq

inductive UpstreamReply where
  | ok (env : Envelope)
  | fail (err : List Char)
deriving DecidableEq

/-- Socket events emitted to the conversation room. -/
inductive Emit where
  | newMessage (cid : Nat) (m : Msg)
deriving DecidableEq

/-- HTTP responses produced by the chat route after the lookup succeeded. -/
inductive HttpResp where
  | okMsg (m : Msg) (usage : Option Nat)
  | errResp (status : Nat) (message : List Char) (error : List Char)
deriving DecidableEq

/-- The user message pushed by both chat routes. -/
def mkUserMsg (content : List Char) (now : Nat) : Msg :=
  { role := Role.user, content := content, timestamp := now,
    model := none, tokens := ceilDiv4 content.length }

/-- User message push and save of the chat routes; totalTokens is not
recomputed here. -/
def pushUserMessage (c : Chat) (content : List Char) (now : Nat) : Chat × Msg :=
  let m := mkUserMsg content now
  (saveChat now { c with messages := c.messages ++ [m] }, m)

/-- The assistant message shape persisted by the non-streaming route, with
tokens taken from the usage report. -/
def completionAssistantMsg (content : List Char) (mdl : List Char) (tokensUsed : Nat)
    (now : Nat) : Msg :=
  { role := Role.assistant, content := content, timestamp := now,
    model := some mdl, tokens := tokensUsed }

/-- Content of the placeholder assistant message persisted when the upstream
call fails. -/
def apologyContent : List Char :=
  strL "Sorry, I encountered an error while processing your request. Please try again."

/-- Context preparation shared by both chat routes: non-system messages,
last twenty, projected to role and content. -/
def contextWindow (c : Chat) : List (Role × List Char) :=
  let nonSys := c.messages.filter (fun m => decide (m.role ≠ Role.system))
  (nonSys.drop (nonSys.length - 20)).map (fun m => (m.role, m.content))

/-- Core of the non-streaming chat route after a successful lookup: push and
save the user message, emit it, then either persist the assistant reply with
recomputed totals, or persist the fixed placeholder assistant message
without recomputing totals and answer with a 500 error response. -/
def postChatCore (c : Chat) (content : List Char) (selModel : List Char)
    (now1 now2 : Nat) (up : UpstreamReply) : Chat × List Emit × HttpResp :=
  let c1 := (pushUserMessage c content now1).1
  let userMsg := (pushUserMessage c content now1).2
  let e1 := [Emit.newMessage c.id userMsg]
  match up with
  | UpstreamReply.ok env =>
    let am := completionAssistantMsg env.content selModel (env.totalTokens.getD 0) now2
    let c2 := saveChat now2 (calculateTotalTokens
      { c1 with messages := c1.messages ++ [am] })
    (c2, e1 ++ [Emit.newMessage c.id am], HttpResp.okMsg am env.totalTokens)
  | UpstreamReply.fail err =>
    let em := completionAssistantMsg apologyContent selModel 0 now2
    let c2 := saveChat now2 { c1 with messages := c1.messages ++ [em] }
    (c2, e1 ++ [Emit.newMessage c.id em],
      HttpResp.errResp 500 (strL "AI service temporarily unavailable") err)

/- Router level database operations. The database is the list of
   conversation documents; document ids are unique. -/

/-- Chat.findOne with filter id, user and isActive true, shared by the
message, chat and stream routes. -/
def findActiveChat (db : List Chat) (cid uid : Nat) : Option Chat :=
  db.find? (fun c => decide (c.id = cid ∧ c.user = uid ∧ c.isActive = true))

/-- Replace the document with the given id, as a mongoose save does. -/
def storeChat (db : List Chat) (c : Chat) : List Chat :=
  db.map (fun x => if x.id = c.id then c else x)

inductive ApiErr where
  | notFound
deriving DecidableEq

/-- Core of the generic add-message endpoint after a successful lookup: the
message carries the model field only for the assistant role, totals are
recomputed, and the title is derived from the first user message exactly
when the title is still the placeholder, the role is user, and the pushed
message is the only message of the conversation. -/
def addMessage (c : Chat) (role : Role) (content : List Char)
    (mdl : Option (List Char)) (tokens : Option Nat) (now : Nat) : Chat × Msg :=
  let message : Msg :=
    { role := role, content := content, timestamp := now,
      model := if role = Role.assistant then mdl else none,
      tokens := tokens.getD 0 }
  let c1 := { c with messages := c.messages ++ [message] }
  let c2 := calculateTotalTokens c1
  let c3 :=
    if c2.title = strL "New Chat" ∧ role = Role.user ∧ c2.messages.length = 1 then
      { c2 with title := generateTitle c2 }
    else c2
  (saveChat now c3, message)

/-- The add-message endpoint with its lookup: a missing, foreign or
soft-deleted conversation answers not found. -/
def addMessageOp (db : List Chat) (cid uid : Nat) (role : Role) (content : List Char)
    (mdl : Option (List Char)) (tokens : Option Nat) (now : Nat) :
    Except ApiErr (List Chat × Msg) :=
  match findActiveChat db cid uid with
  | none => Except.error ApiErr.notFound
  | some c =>
    let r := addMessage c role content mdl tokens now
    Except.ok (storeChat db r.1, r.2)

/-- The delete endpoint: findOneAndUpdate with the isActive true filter,
setting isActive to false and returning the updated document; a second call
misses the filter and answers not found. -/
def softDeleteOp (db : List Chat) (cid uid : Nat) : List Chat × Option Chat :=
  match findActiveChat db cid uid with
  | none => (db, none)
  | some c =>
    let c1 := { c with isActive := false }
    (storeChat db c1, some c1)

/- Opening phase of the stream route, as an ordered action trace: the SSE
   headers are written with status 200 before the conversation lookup; a
   failed lookup is answered by a single in-stream error event followed by
   the end of the stream, with the database untouched. -/

inductive SAct where
  | writeHead (status : Nat) (sse : Bool)
  | dbFind (cid uid : Nat)
  | sseErr (msg : List Char)
  | sseEnd
  | dbSave (cid : Nat)
  | upstreamOpen
deriving DecidableEq

/-- The stream route from the start of the handler to the upstream call. -/
def streamStart (db : List Chat) (cid uid : Nat) (content : List Char)
    (now : Nat) : List SAct × List Chat :=
  let hdr := [SAct.writeHead 200 true, SAct.dbFind cid uid]
  match findActiveChat db cid uid with
  | none => (hdr ++ [SAct.sseErr (strL "Chat not found"), SAct.sseEnd], db)
  | some c =>
    let c1 := (pushUserMessage c content now).1
    (hdr ++ [SAct.dbSave cid, SAct.upstreamOpen], storeChat db c1)

/- Concrete fixtures used by the concrete-input theorems below. -/

def gpt : List Char := strL "openai/gpt-3.5-turbo"

def chat0 : Chat :=
  { id := 1, title := strL "New Chat", user := 1, messages := [],
    model := gpt, isActive := true, totalTokens := 0, lastActivity := 0 }

def helPayload : List Char :=
  strL "\x7b\"choices\":[\x7b\"delta\":\x7b\"content\":\"Hel\"\x7d\x7d]\x7d"

def loPayload : List Char :=
  strL "\x7b\"choices\":[\x7b\"delta\":\x7b\"content\":\"lo\"\x7d\x7d]\x7d"

def badPayload : List Char := strL "\x7boops"

/-- Json value of the Hel frame payload. -/
def jHel : Json :=
  Json.jobj [(strL "choices",
    Json.jarr [Json.jobj [(strL "delta",
      Json.jobj [(strL "content", Json.jstr (strL "Hel"))])]])]

/-- Json value of the lo frame payload. -/
def jLo : Json :=
  Json.jobj [(strL "choices",
    Json.jarr [Json.jobj [(strL "delta",
      Json.jobj [(strL "content", Json.jstr (strL "lo"))])]])]

/-- First half of a data frame split by a chunk boundary inside the JSON
payload. -/
def splitChunk1 : List Char := strL "data: \x7b\"choices\":[\x7b\"delta\":\x7b\"cont"

/-- Second half of the split data frame, carrying the rest of the payload
and the closing newline. -/
def splitChunk2 : List Char := strL "ent\":\"Hi\"\x7d\x7d]\x7d\n"

/-- A user message content longer than fifty characters. -/
def longContent : List Char :=
  strL "Explain quicksort in detail please, including the partition step"

def sampleMsg : Msg :=
  { role := Role.user, content := strL "hi", timestamp := 1, model := none, tokens := 1 }

def chatWithMsg : Chat :=
  { id := 1, title := strL "Greetings", user := 1, messages := [sampleMsg],
    model := gpt, isActive := true, totalTokens := 1, lastActivity := 1 }

def db0 : List Chat := [chatWithMsg]

def deletedChat : Chat := { chatWithMsg with isActive := false }

def dbDeleted : List Chat := [deletedChat]

/- Helper lemmas about the stream decoder. -/

theorem beginsWith_self_append (xs ys : List Char) : beginsWith xs (xs ++ ys) = true := by
  induction xs with
  | nil => rfl
  | cons c cs ih => simp [beginsWith, ih]

theorem drop6_dataLead (p : List Char) : (dataLead ++ p).drop 6 = p := rfl

theorem splitNl_no_nl (p : List Char) (h : '\n' ∉ p) : splitNl (p ++ ['\n']) = [p, []] := by
  induction p with
  | nil => rfl
  | cons c cs ih =>
    have hc : ¬ c = '\n' := fun hc => h (hc ▸ List.mem_cons_self c cs)
    have ih2 := ih (fun hm => h (List.mem_cons_of_mem c hm))
    simp [splitNl, hc, ih2]

/-- A whole data frame arriving in one chunk, with a payload that parses to
a nonempty delta, extends the accumulated response and writes one partial
event. -/
theorem procChunk_data (mdl : List Char) (now : Nat) (st : SSt) (p : List Char)
    (j : Json) (d : List Char)
    (hnl : '\n' ∉ p) (hdm : p ≠ doneMark) (hp : jsonParse p = some j)
    (he : extractDeltaContent j = d) (hne : d ≠ []) :
    procChunk mdl now st (mkDataFrame p) =
      { st with fullResponse := st.fullResponse ++ d,
                writes := st.writes ++ [OutEv.deltaEv d] } := by
  have h1 : '\n' ∉ dataLead ++ p := by
    intro hmem
    rcases List.mem_append.mp hmem with hmem | hmem
    · exact absurd hmem (by decide)
    · exact hnl hmem
  have h2 : splitNl (mkDataFrame p) = [dataLead ++ p, []] := by
    have h3 := splitNl_no_nl (dataLead ++ p) h1
    simpa [mkDataFrame, List.append_assoc] using h3
  unfold procChunk
  rw [h2]
  simp [procLines, beginsWith_self_append, drop6_dataLead, hdm, hp, he, hne, beginsWith]

/-- A whole data frame arriving in one chunk, with a payload that fails to
parse, leaves the session state unchanged. -/
theorem procChunk_skip (mdl : List Char) (now : Nat) (st : SSt) (p : List Char)
    (hnl : '\n' ∉ p) (hdm : p ≠ doneMark) (hp : jsonParse p = none) :
    procChunk mdl now st (mkDataFrame p) = st := by
  have h1 : '\n' ∉ dataLead ++ p := by
    intro hmem
    rcases List.mem_append.mp hmem with hmem | hmem
    · exact absurd hmem (by decide)
    · exact hnl hmem
  have h2 : splitNl (mkDataFrame p) = [dataLead ++ p, []] := by
    have h3 := splitNl_no_nl (dataLead ++ p) h1
    simpa [mkDataFrame, List.append_assoc] using h3
  unfold procChunk
  rw [h2]
  simp [procLines, beginsWith_self_append, drop6_dataLead, hdm, hp, beginsWith]

/-- The sentinel chunk pushes the assembled assistant message, recomputes
totals, saves, writes the done event and ends the response. -/
theorem procChunk_doneChunk (mdl : List Char) (now : Nat) (st : SSt) :
    procChunk mdl now st doneChunk =
      { st with
        chat := saveChat now (calculateTotalTokens
          { st.chat with messages := st.chat.messages ++
            [streamAssistantMsg st.fullResponse mdl now] }),
        writes := st.writes ++ [OutEv.doneEv (streamAssistantMsg st.fullResponse mdl now)],
        ended := true } := rfl

/-- Claim C3: a streaming session whose upstream delivers the data frames
carrying the fragments Hel and lo followed by the completion sentinel
persists exactly one assistant message, whose content is Hello, and hands it
to the append-and-publish step exactly once (one done event). -/
theorem c3_hello_persisted_once :
    (runStream gpt 7 (initSt chat0)
        [mkDataFrame helPayload, mkDataFrame loPayload, doneChunk]).chat.messages
      = chat0.messages ++ [streamAssistantMsg (strL "Hello") gpt 7]
    ∧ (runStream gpt 7 (initSt chat0)
        [mkDataFrame helPayload, mkDataFrame loPayload, doneChunk]).writes
      = [OutEv.deltaEv (strL "Hel"), OutEv.deltaEv (strL "lo"),
         OutEv.doneEv (streamAssistantMsg (strL "Hello") gpt 7)] := by
  exact ⟨by decide, by decide⟩

/-- Claim C2 evaluation: a data frame whose bytes arrive split across two
successive chunks loses its content delta. The same bytes delivered as one
chunk produce the delta Hi, while the split delivery produces no partial
event and assembles the empty response. -/
theorem c2_split_frame_delta_lost :
    (runStream gpt 7 (initSt chat0) [splitChunk1 ++ splitChunk2, doneChunk]).chat.messages
      = chat0.messages ++ [streamAssistantMsg (strL "Hi") gpt 7]
    ∧ (runStream gpt 7 (initSt chat0) [splitChunk1, splitChunk2, doneChunk]).chat.messages
      = chat0.messages ++ [streamAssistantMsg [] gpt 7]
    ∧ (runStream gpt 7 (initSt chat0) [splitChunk1, splitChunk2, doneChunk]).writes
      = [OutEv.doneEv (streamAssistantMsg [] gpt 7)] := by
  exact ⟨by decide, by decide, by decide⟩

/-- Claim C9 counterexample: in a session where the initiating client
disconnects after the first data frame and before the completion sentinel,
the assembled assistant message is still persisted to the conversation log,
so the claim that no assistant message is persisted for that attempt is
false at this input. -/
theorem c9_counterexample :
    (runSession gpt 7 (initSt chat0)
        [UpEvent.upData (mkDataFrame helPayload), UpEvent.clientGone,
         UpEvent.upData (mkDataFrame loPayload), UpEvent.upData doneChunk]).chat.messages
      = chat0.messages ++ [streamAssistantMsg (strL "Hello") gpt 7]
    ∧ (runSession gpt 7 (initSt chat0)
        [UpEvent.upData (mkDataFrame helPayload), UpEvent.clientGone,
         UpEvent.upData (mkDataFrame loPayload), UpEvent.upData doneChunk]).chat.messages.find?
        (fun m => decide (m.role = Role.assistant))
      = some (streamAssistantMsg (strL "Hello") gpt 7) := by
  exact ⟨by decide, by decide⟩

/-- Claim C9 amended: the route registers no client-disconnect listener, so
a disconnect neither tears down the upstream read loop nor changes any
session state: a session with a disconnect event behaves exactly like the
same session without it, and in particular the assembled message is still
persisted when the sentinel arrives. -/
theorem c9_amended_disconnect_ignored (mdl : List Char) (now : Nat) (st : SSt)
    (l1 l2 : List UpEvent) :
    runSession mdl now st (l1 ++ UpEvent.clientGone :: l2)
      = runSession mdl now st (l1 ++ l2) := by
  induction l1 generalizing st with
  | nil => simp [runSession]
  | cons e es ih =>
    cases e with
    | upData c => simp [runSession, ih]
    | clientGone => simp [runSession, ih]

/-- Claim C1 counterexample: the user-message append of the chat route saves
without recomputing totalTokens, so a conversation satisfying the invariant
stops satisfying it right after that operation (the pushed user message
carries one estimated token while totalTokens stays zero). -/
theorem c1_counterexample :
    tokenInvariant chat0
    ∧ ¬ tokenInvariant (pushUserMessage chat0 (strL "hi") 1).1 := by
  exact ⟨by decide, by decide⟩

/-- Claim C1 amended: totalTokens equals the sum of message tokens after the
operations that call calculateTotalTokens (successful non-streaming reply,
generic add-message, streaming finalization on the sentinel), while the
user-message append and the error-placeholder append save without
recomputing, leaving totalTokens at its previous value. -/
theorem c1_amended_total_tokens
    (c : Chat) (content : List Char) (mdl : List Char) (now1 now2 : Nat)
    (env : Envelope) (err : List Char) (r : Role) (md : Option (List Char))
    (tk : Option Nat) (st : SSt) :
    tokenInvariant (postChatCore c content mdl now1 now2 (UpstreamReply.ok env)).1
    ∧ tokenInvariant (addMessage c r content md tk now1).1
    ∧ tokenInvariant (procChunk mdl now1 st doneChunk).chat
    ∧ (pushUserMessage c content now1).1.totalTokens = c.totalTokens
    ∧ (postChatCore c content mdl now1 now2 (UpstreamReply.fail err)).1.totalTokens
        = c.totalTokens := by
  refine ⟨?_, ?_, ?_, ?_, ?_⟩
  · simp [postChatCore, pushUserMessage, tokenInvariant, saveChat, calculateTotalTokens]
  · unfold addMessage
    split <;> (simp [tokenInvariant, saveChat, calculateTotalTokens]; split <;> rfl)
  · rw [procChunk_doneChunk]
    simp [tokenInvariant, saveChat, calculateTotalTokens]
  · simp [pushUserMessage, saveChat]
  · simp [postChatCore, pushUserMessage, saveChat]

/-- Claim C4: a data frame whose payload fails to parse is silently skipped.
First conjunct: inserting such a frame anywhere in a session leaves the
whole run unchanged (so the session does not terminate early). Remaining
conjuncts: in a session with a malformed frame between two valid frames and
the sentinel, the assembled final text is the concatenation of the valid
fragments in order, and both fragments were also emitted as partial
events. -/
theorem c4_malformed_frame_skipped
    (mdl : List Char) (now : Nat) (st : SSt) (pre post : List (List Char))
    (c : Chat) (p1 p2 bad : List Char) (j1 j2 : Json) (d1 d2 : List Char)
    (hbnl : '\n' ∉ bad) (hbdm : bad ≠ doneMark) (hb : jsonParse bad = none)
    (h1nl : '\n' ∉ p1) (h1dm : p1 ≠ doneMark) (h1 : jsonParse p1 = some j1)
    (h1e : extractDeltaContent j1 = d1) (h1ne : d1 ≠ [])
    (h2nl : '\n' ∉ p2) (h2dm : p2 ≠ doneMark) (h2 : jsonParse p2 = some j2)
    (h2e : extractDeltaContent j2 = d2) (h2ne : d2 ≠ []) :
    runStream mdl now st (pre ++ mkDataFrame bad :: post)
      = runStream mdl now st (pre ++ post)
    ∧ (runStream mdl now (initSt c)
        [mkDataFrame p1, mkDataFrame bad, mkDataFrame p2, doneChunk]).chat.messages
      = c.messages ++ [streamAssistantMsg (d1 ++ d2) mdl now]
    ∧ (runStream mdl now (initSt c)
        [mkDataFrame p1, mkDataFrame bad, mkDataFrame p2, doneChunk]).writes
      = [OutEv.deltaEv d1, OutEv.deltaEv d2,
         OutEv.doneEv (streamAssistantMsg (d1 ++ d2) mdl now)] := by
  have hskip : ∀ s : SSt, procChunk mdl now s (mkDataFrame bad) = s := fun s =>
    procChunk_skip mdl now s bad hbnl hbdm hb
  refine ⟨?_, ?_, ?_⟩
  · unfold runStream
    rw [List.foldl_append, List.foldl_append, List.foldl_cons, hskip]
  · unfold runStream
    simp only [List.foldl_cons, List.foldl_nil]
    rw [procChunk_data mdl now _ p1 j1 d1 h1nl h1dm h1 h1e h1ne, hskip,
      procChunk_data mdl now _ p2 j2 d2 h2nl h2dm h2 h2e h2ne, procChunk_doneChunk]
    simp [initSt, saveChat, calculateTotalTokens]
  · unfold runStream
    simp only [List.foldl_cons, List.foldl_nil]
    rw [procChunk_data mdl now _ p1 j1 d1 h1nl h1dm h1 h1e h1ne, hskip,
      procChunk_data mdl now _ p2 j2 d2 h2nl h2dm h2 h2e h2ne, procChunk_doneChunk]
    simp [initSt, saveChat, calculateTotalTokens]

/-- Witness for C4 at concrete inputs: the bad payload fails to parse, the
two valid payloads carry the fragments Hel and lo, and the session behaves
as the theorem states. -/
theorem c4_witness :
    jsonParse badPayload = none
    ∧ (runStream gpt 7 (initSt chat0) ([] ++ mkDataFrame badPayload :: [])
        = runStream gpt 7 (initSt chat0) ([] ++ [])
      ∧ (runStream gpt 7 (initSt chat0)
          [mkDataFrame helPayload, mkDataFrame badPayload, mkDataFrame loPayload,
           doneChunk]).chat.messages
        = chat0.messages ++ [streamAssistantMsg (strL "Hel" ++ strL "lo") gpt 7]
      ∧ (runStream gpt 7 (initSt chat0)
          [mkDataFrame helPayload, mkDataFrame badPayload, mkDataFrame loPayload,
           doneChunk]).writes
        = [OutEv.deltaEv (strL "Hel"), OutEv.deltaEv (strL "lo"),
           OutEv.doneEv (streamAssistantMsg (strL "Hel" ++ strL "lo") gpt 7)]) :=
  ⟨rfl,
    c4_malformed_frame_skipped gpt 7 (initSt chat0) [] [] chat0
      helPayload loPayload badPayload jHel jLo (strL "Hel") (strL "lo")
      (by decide) (by decide) rfl
      (by decide) (by decide) rfl rfl (by decide)
      (by decide) (by decide) rfl rfl (by decide)⟩

/-- Claim C5 counterexample: a conversation still titled with the default
placeholder receives an assistant message first; appending the first user
message afterwards (a long one) does not derive the title, because the
route also requires the pushed message to be the only message of the
conversation. The claim that derivation applies whenever the first user
message is appended is therefore false at this input. -/
theorem c5_counterexample :
    ((addMessage chat0 Role.assistant (strL "welcome") (some gpt) none 1).1.title
      = strL "New Chat")
    ∧ ((addMessage chat0 Role.assistant (strL "welcome") (some gpt) none 1).1.messages.find?
        (fun m => decide (m.role = Role.user)) = none)
    ∧ ((addMessage (addMessage chat0 Role.assistant (strL "welcome") (some gpt) none 1).1
        Role.user longContent none none 2).1.title = strL "New Chat")
    ∧ ((addMessage (addMessage chat0 Role.assistant (strL "welcome") (some gpt) none 1).1
        Role.user longContent none none 2).1.title
      ≠ longContent.take 50 ++ strL "...") := by
  exact ⟨by decide, by decide, by decide, by decide⟩

/-- Claim C5 amended: appending a user message through the add-message
endpoint derives the title (first fifty characters, plus an ellipsis marker
when the content is longer) exactly when the title is still the placeholder
and the conversation had no messages at all before the append; in every
other case, including a first user message preceded by a non-user message,
the title is left unchanged, so derivation can happen at most once. -/
theorem c5_amended_title_rule (c : Chat) (content : List Char) (tk : Option Nat)
    (now : Nat) :
    (addMessage c Role.user content none tk now).1.title =
      if c.title = strL "New Chat" ∧ c.messages = [] then
        content.take 50 ++ (if 50 < content.length then strL "..." else [])
      else c.title := by
  by_cases ht : c.title = strL "New Chat"
  · by_cases hm : c.messages = []
    · simp [addMessage, saveChat, calculateTotalTokens, ht, hm, generateTitle]
    · have hlen : c.messages.length ≠ 0 := fun h0 => hm (List.length_eq_zero.mp h0)
      simp [addMessage, saveChat, calculateTotalTokens, ht, hm, hlen]
  · simp [addMessage, saveChat, calculateTotalTokens, ht]

/-- Claim C7: on the non-streaming path, every upstream failure appends the
fixed user-visible placeholder assistant message (never the raw failure
text, which does not influence the appended message at all), broadcasts it
to the conversation room, and reports the underlying error to the caller in
a 500 error response. -/
theorem c7_upstream_failure_placeholder (c : Chat) (content mdl err : List Char)
    (now1 now2 : Nat) :
    (postChatCore c content mdl now1 now2 (UpstreamReply.fail err)).1.messages
      = c.messages ++ [mkUserMsg content now1,
          completionAssistantMsg apologyContent mdl 0 now2]
    ∧ Emit.newMessage c.id (completionAssistantMsg apologyContent mdl 0 now2)
        ∈ (postChatCore c content mdl now1 now2 (UpstreamReply.fail err)).2.1
    ∧ (postChatCore c content mdl now1 now2 (UpstreamReply.fail err)).2.2
        = HttpResp.errResp 500 (strL "AI service temporarily unavailable") err := by
  refine ⟨?_, ?_, ?_⟩ <;> simp [postChatCore, pushUserMessage, saveChat]

/-- Claim C8 counterexample: for the same upstream response text Hello with
a reported usage of ten tokens, the non-streaming path persists an
assistant message with ten tokens while the streaming path persists one
with two estimated tokens, so the persisted message shapes differ. -/
theorem c8_counterexample :
    ((postChatCore chat0 (strL "hi") gpt 1 2
        (UpstreamReply.ok { content := strL "Hello", totalTokens := some 10 })).1.messages.getLast?
      = some (completionAssistantMsg (strL "Hello") gpt 10 2))
    ∧ ((runStream gpt 2 (initSt chat0)
        [mkDataFrame helPayload, mkDataFrame loPayload, doneChunk]).chat.messages.getLast?
      = some (streamAssistantMsg (strL "Hello") gpt 2))
    ∧ completionAssistantMsg (strL "Hello") gpt 10 2 ≠ streamAssistantMsg (strL "Hello") gpt 2
    ∧ (completionAssistantMsg (strL "Hello") gpt 10 2).tokens = 10
    ∧ (streamAssistantMsg (strL "Hello") gpt 2).tokens = 2 := by
  exact ⟨by decide, by decide, by decide, by decide, by decide⟩

/-- Claim C8 amended: for the same response text the two paths persist the
same role, content, model and timestamp, but the token fields agree exactly
when the provider-reported usage (defaulting to zero when absent) happens
to equal the length-over-four estimate, so the two paths are
distinguishable in general. -/
theorem c8_amended_shape (content mdl : List Char) (now : Nat) (u : Option Nat) :
    (completionAssistantMsg content mdl (u.getD 0) now).role
        = (streamAssistantMsg content mdl now).role
    ∧ (completionAssistantMsg content mdl (u.getD 0) now).content
        = (streamAssistantMsg content mdl now).content
    ∧ (completionAssistantMsg content mdl (u.getD 0) now).model
        = (streamAssistantMsg content mdl now).model
    ∧ (completionAssistantMsg content mdl (u.getD 0) now).timestamp
        = (streamAssistantMsg content mdl now).timestamp
    ∧ ((completionAssistantMsg content mdl (u.getD 0) now).tokens
          = (streamAssistantMsg content mdl now).tokens
        ↔ u.getD 0 = ceilDiv4 content.length) := by
  simp [completionAssistantMsg, streamAssistantMsg]

/-- Claim C6 counterexample: the first soft-delete of an active conversation
succeeds and returns the updated document, but a second soft-delete of the
same conversation misses the active-only filter and returns nothing, which
the endpoint answers with not found — not with the same successful result
as the first call, so the claimed idempotence of the reported result is
false at this input. -/
theorem c6_counterexample :
    (softDeleteOp db0 1 1).2 ≠ none
    ∧ (softDeleteOp (softDeleteOp db0 1 1).1 1 1).2 = none := by
  exact ⟨by decide, by decide⟩

/-- Claim C6 amended: soft-deleting an active conversation clears the
liveness flag; a second soft-delete fails with not found while leaving the
stored state unchanged (the stored effect, not the reported result, is
idempotent); every subsequent append through the message endpoint fails
with not found; and the previously stored messages are retained in the
database, not erased. -/
theorem c6_amended_softdelete (db : List Chat) (cid uid : Nat) (c0 : Chat)
    (h : findActiveChat db cid uid = some c0) :
    (softDeleteOp db cid uid).2 = some { c0 with isActive := false }
    ∧ softDeleteOp (softDeleteOp db cid uid).1 cid uid
        = ((softDeleteOp db cid uid).1, none)
    ∧ findActiveChat (softDeleteOp db cid uid).1 cid uid = none
    ∧ (∀ (role : Role) (content : List Char) (md : Option (List Char))
        (tk : Option Nat) (now : Nat),
        addMessageOp (softDeleteOp db cid uid).1 cid uid role content md tk now
          = Except.error ApiErr.notFound)
    ∧ ∃ x ∈ (softDeleteOp db cid uid).1,
        x.id = c0.id ∧ x.messages = c0.messages ∧ x.isActive = false := by
  have h0 : List.find? (fun c => decide (c.id = cid ∧ c.user = uid ∧ c.isActive = true)) db
      = some c0 := h
  have hprop : c0.id = cid ∧ c0.user = uid ∧ c0.isActive = true := by
    have hfind := List.find?_some h0
    simpa using hfind
  have hmem : c0 ∈ db := List.mem_of_find?_eq_some h0
  have hdel : softDeleteOp db cid uid
      = (storeChat db { c0 with isActive := false }, some { c0 with isActive := false }) := by
    simp [softDeleteOp, h]
  have hnone : findActiveChat (storeChat db { c0 with isActive := false }) cid uid = none := by
    apply List.find?_eq_none.mpr
    intro x hx
    rcases List.mem_map.mp hx with ⟨a, ha, hax⟩
    by_cases hid : a.id = c0.id
    · have hx1 : x = { c0 with isActive := false } := by
        rw [← hax]; simp [hid]
      rw [hx1]
      simp
    · have hx1 : x = a := by rw [← hax]; simp [hid]
      rw [hx1]
      simp only [decide_eq_true_eq]
      rintro ⟨ha1, -, -⟩
      exact hid (ha1.trans hprop.1.symm)
  refine ⟨?_, ?_, ?_, ?_, ?_⟩
  · rw [hdel]
  · rw [hdel]
    simp [softDeleteOp, hnone]
  · rw [hdel]
    exact hnone
  · intro role content md tk now
    rw [hdel]
    simp [addMessageOp, hnone]
  · refine ⟨{ c0 with isActive := false }, ?_, by simp, by simp, by simp⟩
    rw [hdel]
    simp only [storeChat]
    exact List.mem_map.mpr ⟨c0, hmem, by simp⟩

/-- Witness for the amended C6 at a concrete database holding one active
conversation with one stored message. -/
theorem c6_amended_witness :
    findActiveChat db0 1 1 = some chatWithMsg
    ∧ ((softDeleteOp db0 1 1).2 = some { chatWithMsg with isActive := false }
      ∧ softDeleteOp (softDeleteOp db0 1 1).1 1 1 = ((softDeleteOp db0 1 1).1, none)
      ∧ findActiveChat (softDeleteOp db0 1 1).1 1 1 = none
      ∧ (∀ (role : Role) (content : List Char) (md : Option (List Char))
          (tk : Option Nat) (now : Nat),
          addMessageOp (softDeleteOp db0 1 1).1 1 1 role content md tk now
            = Except.error ApiErr.notFound)
      ∧ ∃ x ∈ (softDeleteOp db0 1 1).1,
          x.id = chatWithMsg.id ∧ x.messages = chatWithMsg.messages ∧ x.isActive = false) :=
  ⟨by decide, c6_amended_softdelete db0 1 1 chatWithMsg (by decide)⟩

/-- Claim C10: the stream route writes the SSE headers with status 200
before the conversation lookup (the first two actions of the trace, in that
order); when the lookup misses — conversation absent, foreign or
soft-deleted — the failure is delivered as a single in-stream error event
followed by the end of the stream, never as an HTTP 404, and the database
is left untouched, so no message is appended to any conversation. -/
theorem c10_stream_notfound (db : List Chat) (cid uid : Nat) (content : List Char)
    (now : Nat) (h : findActiveChat db cid uid = none) :
    streamStart db cid uid content now =
      ([SAct.writeHead 200 true, SAct.dbFind cid uid,
        SAct.sseErr (strL "Chat not found"), SAct.sseEnd], db) := by
  simp [streamStart, h]

/-- Witness for C10 at a concrete database whose only conversation is
soft-deleted. -/
theorem c10_witness :
    findActiveChat dbDeleted 1 1 = none
    ∧ streamStart dbDeleted 1 1 (strL "hi") 5 =
        ([SAct.writeHead 200 true, SAct.dbFind 1 1,
          SAct.sseErr (strL "Chat not found"), SAct.sseEnd], dbDeleted) :=
  ⟨by decide, c10_stream_notfound dbDeleted 1 1 (strL "hi") 5 (by decide)⟩
